import Mathlib

/-!
Vivid pipeline handler: configuration validation and stream lifecycle.

A shallow embedding of `src/libcamera/pipeline/vivid/vivid.cpp` and of the
completion hand-off queue of `src/py/pycamera/pymain.cpp`.

* C++ vectors are lists; `std::map` is a key-sorted association list.
* A call that reaches undefined behaviour (indexing an empty vector,
  dereferencing a null pointer) does not return: `validate` and
  `generateConfiguration` yield `none`, `start` yields `Except.error`
  carrying the camera data at the point of the fault.
* `unsigned int` and `int` values are `Nat` and `Int`; the code only copies
  and compares them, so no arithmetic can wrap.
-/

namespace Vivid

/-! ## Data model -/

/-- Width and height of an image, `libcamera::Size`. -/
structure Size where
  width : Nat
  height : Nat
deriving DecidableEq, Repr

/-- A range of sizes with steps, `libcamera::SizeRange`. -/
structure SizeRange where
  min : Size
  max : Size
  hStep : Nat
  vStep : Nat
deriving DecidableEq, Repr

/-- A pixel format: DRM fourcc and modifier, compared field by field. -/
structure PixelFormat where
  fourcc : Nat
  modifier : Nat
deriving DecidableEq, Repr

/-- A V4L2 pixel format: the V4L2 fourcc. -/
structure V4L2PixelFormat where
  fourcc : Nat
deriving DecidableEq, Repr

/-- The formats a stream supports: the contents of the
`std::map<PixelFormat, std::vector<SizeRange>>` in iteration order. -/
structure StreamFormats where
  formats_ : List (PixelFormat × List SizeRange)
deriving DecidableEq, Repr

/-- The keys of the format map in iteration order, `StreamFormats::pixelformats()`. -/
def StreamFormats.pixelformats (f : StreamFormats) : List PixelFormat :=
  f.formats_.map Prod.fst

/-- One stream configuration. `stream_` is the back-reference set by
`setStream` (`none` is the null pointer), `formats_` what `formats()` returns. -/
structure StreamConfiguration where
  pixelFormat : PixelFormat
  size : Size
  stride : Nat
  frameSize : Nat
  bufferCount : Nat
  stream_ : Option Nat
  formats_ : StreamFormats
deriving DecidableEq, Repr

/-- The tri-state result `CameraConfiguration::Status`. -/
inductive Status where
  | Valid
  | Adjusted
  | Invalid
deriving DecidableEq, Repr

/-- The entries `config_` of a `CameraConfiguration`. -/
abbrev CameraConfiguration := List StreamConfiguration

/-- The requested stream roles, `StreamRole`. -/
inductive StreamRole where
  | StillCapture
  | VideoRecording
  | Viewfinder
deriving DecidableEq, Repr

/-! ## `VividCameraConfiguration::validate` (vivid.cpp:84-110) -/

/-- The body of `validate` after the empty check, on the entry `config_[0]`
and the entries behind it: adjust the pixel format (lines 99-105), set the
buffer count (line 107), return the status (line 109). Reading
`pixelformats()[0]` of an empty vector is the fault `none`. -/
def validateFirst (status : Status) (cfg : StreamConfiguration)
    (tail : List StreamConfiguration) : Option (Status × CameraConfiguration) :=
  let formats := cfg.formats_.pixelformats
  if formats.contains cfg.pixelFormat then
    some (status, { cfg with bufferCount := 4 } :: tail)
  else
    match cfg.formats_.pixelformats with
    | [] => none
    | first :: _ =>
      some (Status.Adjusted, { cfg with pixelFormat := first, bufferCount := 4 } :: tail)

/-- The function `VividCameraConfiguration::validate`: the status returned and
the entries left in `config_`, or `none` when the call faults. -/
def validate (config_ : CameraConfiguration) : Option (Status × CameraConfiguration) :=
  if config_.isEmpty then
    some (Status.Invalid, config_)
  else
    let capped : Status × CameraConfiguration :=
      if config_.length > 1 then (Status.Adjusted, config_.take 1)
      else (Status.Valid, config_)
    -- `config_[0]`: the set is not empty here, so the first case is never taken
    match capped.2 with
    | [] => none
    | cfg :: tail => validateFirst capped.1 cfg tail

/-! ## `PipelineHandlerVivid::generateConfiguration` (vivid.cpp:117-150) -/

/-- Declarations the handler uses that live in headers outside this file:
the conversion `V4L2PixelFormat::toPixelFormat`, the constant
`formats::BGR888` and `operator<` of `PixelFormat` (the key order of the
device format map). -/
structure FormatDecls where
  toPixelFormat : V4L2PixelFormat → PixelFormat
  BGR888 : PixelFormat
  lt : PixelFormat → PixelFormat → Bool

/-- Insertion into a `std::map` keyed by `PixelFormat`: the pair is placed in
key order, and dropped when an equivalent key is already present. -/
def mapInsert (lt : PixelFormat → PixelFormat → Bool) (kv : PixelFormat × List SizeRange) :
    List (PixelFormat × List SizeRange) → List (PixelFormat × List SizeRange)
  | [] => [kv]
  | e :: m =>
    if lt kv.1 e.1 then kv :: e :: m
    else if lt e.1 kv.1 then e :: mapInsert lt kv m
    else e :: m

/-- The `std::transform` of lines 129-136: every V4L2 format of the device,
converted, inserted into `deviceFormats`. -/
def deviceFormats (d : FormatDecls) (v4l2Formats : List (V4L2PixelFormat × List SizeRange)) :
    List (PixelFormat × List SizeRange) :=
  v4l2Formats.foldl (fun m format => mapInsert d.lt (d.toPixelFormat format.1, format.2) m) []

/-- The constructor `StreamConfiguration(const StreamFormats &)`: every field
zero, no stream, the given formats. -/
def StreamConfiguration.ofFormats (formats : StreamFormats) : StreamConfiguration :=
  { pixelFormat := ⟨0, 0⟩, size := ⟨0, 0⟩, stride := 0, frameSize := 0,
    bufferCount := 0, stream_ := none, formats_ := formats }

/-- The configuration handed to `validate` on line 147: 1280x720 BGR888 with
four buffers over the device formats. -/
def requestedConfiguration (d : FormatDecls)
    (v4l2Formats : List (V4L2PixelFormat × List SizeRange)) : StreamConfiguration :=
  { StreamConfiguration.ofFormats ⟨deviceFormats d v4l2Formats⟩ with
    pixelFormat := d.BGR888, size := ⟨1280, 720⟩, bufferCount := 4 }

/-- The call `CameraConfiguration::addConfiguration`: append one entry. -/
def addConfiguration (config : CameraConfiguration) (cfg : StreamConfiguration) :
    CameraConfiguration :=
  config ++ [cfg]

/-- The function `PipelineHandlerVivid::generateConfiguration`; `v4l2Formats`
is what `data->video_->formats()` returns. The result is the returned
configuration, or `none` when the inner `validate` faults. -/
def generateConfiguration (d : FormatDecls)
    (v4l2Formats : List (V4L2PixelFormat × List SizeRange))
    (roles : List StreamRole) : Option CameraConfiguration :=
  if roles.isEmpty then
    some []
  else
    match validate (addConfiguration [] (requestedConfiguration d v4l2Formats)) with
    | none => none
    | some r => some r.2

/-! ## `PipelineHandlerVivid::configure` (vivid.cpp:152-174) -/

/-- One plane of a device format: size in bytes and bytes per line. -/
structure V4L2PlaneFormat where
  size : Nat
  bpl : Nat
deriving DecidableEq, Repr

/-- The device format `V4L2DeviceFormat`, with its fixed array of three planes. -/
structure V4L2DeviceFormat where
  fourcc : V4L2PixelFormat
  size : Size
  planes : Fin 3 → V4L2PlaneFormat
  planesCount : Nat

/-- The value-initialised format of line 158, `V4L2DeviceFormat format = {}`. -/
def V4L2DeviceFormat.zero : V4L2DeviceFormat :=
  { fourcc := ⟨0⟩, size := ⟨0, 0⟩, planes := fun _ => ⟨0, 0⟩, planesCount := 0 }

/-- The errno value `EINVAL` of the platform headers. -/
def EINVAL : Int := 22

/-- The format of lines 158-160 that `configure` passes to `setFormat`: all
zero but the converted pixel format and the size of the configuration. -/
def requestedFormat (toV4L2PixelFormat : PixelFormat → V4L2PixelFormat)
    (cfg : StreamConfiguration) : V4L2DeviceFormat :=
  { V4L2DeviceFormat.zero with fourcc := toV4L2PixelFormat cfg.pixelFormat, size := cfg.size }

/-- The function `PipelineHandlerVivid::configure`. The two calls on
`data->video_` are parameters: `toV4L2PixelFormat`, and `setFormat`, which
maps the format passed in to the return value and the format written back.
`stream` identifies `data->stream_`. The result is the return value and the
configuration afterwards; `none` when `config->at(0)` has no entry to refer to. -/
def configure (toV4L2PixelFormat : PixelFormat → V4L2PixelFormat)
    (setFormat : V4L2DeviceFormat → Int × V4L2DeviceFormat) (stream : Nat)
    (config : CameraConfiguration) : Option (Int × CameraConfiguration) :=
  match config with
  | [] => none
  | cfg :: tail =>
    let r := setFormat (requestedFormat toV4L2PixelFormat cfg)
    let ret := r.1
    let format := r.2
    if ret ≠ 0 then
      some (ret, cfg :: tail)
    else if format.size ≠ cfg.size ∨ format.fourcc ≠ toV4L2PixelFormat cfg.pixelFormat then
      some (-EINVAL, cfg :: tail)
    else
      some (0, { cfg with stream_ := some stream, stride := (format.planes 0).bpl } :: tail)

/-! ## `PipelineHandlerVivid::start` and `stop` (vivid.cpp:185-209) -/

/-- A call made on the capture device, recorded in call order. -/
inductive DeviceCall where
  | importBuffers (count : Nat)
  | streamOn
  | streamOff
  | releaseBuffers
deriving DecidableEq, Repr

/-- The capture device handle `V4L2VideoDevice` as far as `start` and `stop`
see it: the number of imported buffers it holds, whether it is streaming, and
the calls made on it so far (oldest first). -/
structure V4L2VideoDevice where
  buffers : Nat
  streaming : Bool
  calls : List DeviceCall
deriving DecidableEq, Repr

/-- Modelled from the spec: `V4L2VideoDevice::importBuffers` is defined outside
this file. Section 6 gives it as `importBuffers(count) -> ok|error`; `ret` is
the result the device reports, negative for an error, and the device holds
`count` buffers when it is not an error. -/
def V4L2VideoDevice.importBuffers (dev : V4L2VideoDevice) (count : Nat) (ret : Int) :
    Int × V4L2VideoDevice :=
  let dev := { dev with calls := dev.calls ++ [DeviceCall.importBuffers count] }
  if ret < 0 then (ret, dev) else (ret, { dev with buffers := count })

/-- Modelled from the spec: `V4L2VideoDevice::streamOn` is defined outside this
file. Section 6 gives it as `streamOn() -> ok|error`; `ret` is the result the
device reports, negative for an error, and the device streams when it is not
an error. -/
def V4L2VideoDevice.streamOn (dev : V4L2VideoDevice) (ret : Int) : Int × V4L2VideoDevice :=
  let dev := { dev with calls := dev.calls ++ [DeviceCall.streamOn] }
  if ret < 0 then (ret, dev) else (ret, { dev with streaming := true })

/-- Modelled from the spec: `V4L2VideoDevice::streamOff` is defined outside this
file. Section 4.2 has it disable streaming; `ret` is the `ok|error` result of
section 6, handed back as reported. -/
def V4L2VideoDevice.streamOff (dev : V4L2VideoDevice) (ret : Int) : Int × V4L2VideoDevice :=
  (ret, { dev with streaming := false, calls := dev.calls ++ [DeviceCall.streamOff] })

/-- Modelled from the spec: `V4L2VideoDevice::releaseBuffers` is defined outside
this file. Section 4.2 has it release all buffers the device holds. -/
def V4L2VideoDevice.releaseBuffers (dev : V4L2VideoDevice) : V4L2VideoDevice :=
  { dev with buffers := 0, calls := dev.calls ++ [DeviceCall.releaseBuffers] }

/-- The object behind `CameraData::ipa_`, as far as `start` uses it. -/
structure IPAProxy where
  running : Bool
deriving DecidableEq, Repr

/-- Modelled from the spec: `IPAProxy::stop` is defined outside this file (the
IPA is an external collaborator in section 1); it leaves the IPA not running. -/
def IPAProxy.stop (_ipa : IPAProxy) : IPAProxy :=
  { running := false }

/-- The stream of a camera with the configuration `configuration()` returns. -/
structure Stream where
  configuration_ : StreamConfiguration
deriving DecidableEq, Repr

/-- The per-camera data of a registered camera. `video_` is the device opened
by `init` (line 241), before `match` registers the camera. `ipa_` is the
pointer member inherited from `CameraData` that line 196 dereferences; the
constructor (lines 24-27) does not set it and no line of vivid.cpp assigns
it, so it is `none`, the null pointer, for every camera this handler creates. -/
structure VividCameraData where
  video_ : V4L2VideoDevice
  stream_ : Stream
  ipa_ : Option IPAProxy
deriving DecidableEq, Repr

/-- The function `PipelineHandlerVivid::start`; `importRet` and `streamOnRet`
are the results the device reports for the two calls. `Except.ok` carries the
return value and the camera data afterwards; `Except.error` carries the
camera data at the point where `data->ipa_->stop()` dereferences a null
`ipa_` and the call does not return. -/
def start (data : VividCameraData) (importRet streamOnRet : Int) :
    Except VividCameraData (Int × VividCameraData) :=
  let count := data.stream_.configuration_.bufferCount
  let r := data.video_.importBuffers count importRet
  let data := { data with video_ := r.2 }
  if r.1 < 0 then
    Except.ok (r.1, data)
  else
    let r := data.video_.streamOn streamOnRet
    let data := { data with video_ := r.2 }
    if r.1 < 0 then
      match data.ipa_ with
      | none => Except.error data
      | some ipa =>
        let data := { data with ipa_ := some ipa.stop }
        let data := { data with video_ := data.video_.releaseBuffers }
        Except.ok (r.1, data)
    else
      Except.ok (0, data)

/-- The function `PipelineHandlerVivid::stop`; `streamOffRet` is the result the
device reports for `streamOff`, which the code discards. -/
def stop (data : VividCameraData) (streamOffRet : Int) : VividCameraData :=
  let r := data.video_.streamOff streamOffRet
  let data := { data with video_ := r.2 }
  { data with video_ := data.video_.releaseBuffers }

/-! ## `VividCameraData::bufferReady` (vivid.cpp:250-256) -/

/-- A frame buffer as `bufferReady` sees it: its identity and the request that
`request()` returns, both by identity. -/
structure FrameBuffer where
  id : Nat
  request_ : Nat
deriving DecidableEq, Repr

/-- A call `bufferReady` makes on the pipeline handler, recorded in call order. -/
inductive PipeCall where
  | completeBuffer (request : Nat) (buffer : Nat)
  | completeRequest (request : Nat)
deriving DecidableEq, Repr

/-- The function `VividCameraData::bufferReady`: the calls made on `pipe_` so
far, extended by the two calls of lines 254 and 255. -/
def bufferReady (calls : List PipeCall) (buffer : FrameBuffer) : List PipeCall :=
  let request := buffer.request_
  let calls := calls ++ [PipeCall.completeBuffer request buffer.id]
  calls ++ [PipeCall.completeRequest request]

/-- A sequence of buffer-ready notifications delivered to `bufferReady` one
after the other. -/
def deliver (calls : List PipeCall) (notifications : List FrameBuffer) : List PipeCall :=
  notifications.foldl bufferReady calls

/-- How often `completeRequest` was invoked for a request. -/
def completeRequestCount (request : Nat) (calls : List PipeCall) : Nat :=
  calls.count (PipeCall.completeRequest request)

/-- The buffers of a request that `completeBuffer` has marked complete. -/
def completedBuffers (request : Nat) (calls : List PipeCall) : List Nat :=
  calls.filterMap (fun c =>
    match c with
    | PipeCall.completeBuffer r b => if r = request then some b else none
    | PipeCall.completeRequest _ => none)

/-! ## `PipelineHandlerVivid::match` and `VividCameraData::init` (vivid.cpp:216-248) -/

/-- A media device of the enumerator: its driver name, its entities, the path
of its capture node, whether a handler has claimed it and whether its capture
node is open. -/
structure MediaDevice where
  driver : String
  entities : List String
  deviceNode : String
  claimed : Bool
  nodeOpen : Bool
deriving DecidableEq, Repr

/-- The search pattern `DeviceMatch`: a driver name and the entities added to it. -/
structure DeviceMatch where
  driver : String
  entities : List String
deriving DecidableEq, Repr

/-- Modelled from the spec: `DeviceMatch::match` is defined outside this file.
Section 4.1: a device matches when it has the name and every entity of the
required list. -/
def DeviceMatch.matches (dm : DeviceMatch) (media : MediaDevice) : Bool :=
  media.driver == dm.driver && dm.entities.all (fun e => media.entities.contains e)

/-- Modelled from the spec: `DeviceEnumerator::search` is defined outside this
file. Section 4.1: the position of the first device that is not claimed and
matches, if there is one. -/
def search (dm : DeviceMatch) : List MediaDevice → Option Nat
  | [] => none
  | media :: rest =>
    if !media.claimed && dm.matches media then some 0
    else (search dm rest).map (fun i => i + 1)

/-- The list with `f` applied to the element at position `i`. -/
def updateAt (f : MediaDevice → MediaDevice) : Nat → List MediaDevice → List MediaDevice
  | _, [] => []
  | 0, media :: rest => f media :: rest
  | i + 1, media :: rest => media :: updateAt f i rest

/-- Modelled from the spec: `PipelineHandler::acquireMediaDevice` is defined
outside this file. Sections 4.1 and 6: locate one matching unclaimed device and
claim it exclusively; the result is its position and the enumerator
afterwards, or no device and the enumerator as it was. -/
def acquireMediaDevice (enumerator : List MediaDevice) (dm : DeviceMatch) :
    Option Nat × List MediaDevice :=
  match search dm enumerator with
  | none => (none, enumerator)
  | some i => (some i, updateAt (fun m => { m with claimed := true }) i enumerator)

/-- The errno value `ENODEV` of the platform headers. -/
def ENODEV : Int := 19

/-- A camera as `Camera::create` builds it: its name and its streams. -/
structure Camera where
  name : String
  streams : List Stream
deriving DecidableEq, Repr

/-- What `match` reads and writes: the media devices of the enumerator and the
cameras registered with their data. -/
structure MatchState where
  enumerator : List MediaDevice
  cameras : List (Camera × VividCameraData)
deriving DecidableEq, Repr

/-- The function `VividCameraData::init` on the media device at position
`media`; `openRet` is what `video_->open()` returns. The result is the return
value, the camera data with the new `video_`, and the enumerator afterwards:
the capture node is open when `open` succeeded (modelled from the spec,
section 4.2) and as before when it failed. -/
def VividCameraData.init (enumerator : List MediaDevice) (media : Nat) (openRet : Int) :
    Int × VividCameraData × List MediaDevice :=
  let data : VividCameraData :=
    { video_ := { buffers := 0, streaming := false, calls := [] }
      stream_ := { configuration_ := StreamConfiguration.ofFormats ⟨[]⟩ }
      ipa_ := none }
  if openRet ≠ 0 then
    (-ENODEV, data, enumerator)
  else
    (0, data, updateAt (fun m => { m with nodeOpen := true }) media enumerator)

/-- The name `data->video_->deviceName()`: the path of the capture node of the
media device at position `media`. -/
def deviceName (enumerator : List MediaDevice) (media : Nat) : String :=
  match enumerator.get? media with
  | some m => m.deviceNode
  | none => ""

/-- The pattern of lines 218-219: the driver "vivid" with the entity
"vivid-000-vid-cap" added. -/
def vividMatch : DeviceMatch := { driver := "vivid", entities := ["vivid-000-vid-cap"] }

/-- The function `PipelineHandlerVivid::match`; `openRet` is what opening the
capture node returns. The result is the return value and the state
afterwards. When `init` fails the camera data is destroyed on return; the
media device acquired on line 221 is not released by any line of the function. -/
def match_ (s : MatchState) (openRet : Int) : Bool × MatchState :=
  let dm : DeviceMatch := vividMatch
  let acquired := acquireMediaDevice s.enumerator dm
  match acquired.1 with
  | none => (false, { s with enumerator := acquired.2 })
  | some media =>
    let r := VividCameraData.init acquired.2 media openRet
    if r.1 ≠ 0 then
      (false, { s with enumerator := r.2.2 })
    else
      let data := r.2.1
      let camera : Camera := { name := deviceName r.2.2 media, streams := [data.stream_] }
      (true, { enumerator := r.2.2, cameras := s.cameras ++ [(camera, data)] })

/-! ## Completion hand-off queue (pymain.cpp:77-106 and 150-159) -/

/-- The status of a request, `Request::Status`. -/
inductive RequestStatus where
  | RequestPending
  | RequestComplete
  | RequestCancelled
deriving DecidableEq, Repr

/-- A completed request as `handle_request_completed` reads it: camera, status,
stream-to-buffer map, metadata and cookie. -/
structure Request where
  camera : Nat
  status : RequestStatus
  buffers : List (Nat × Nat)
  metadata : List (Nat × Int)
  cookie : Nat
deriving DecidableEq, Repr

/-- The queue element `CameraEvent` (pymain.cpp:77-84). -/
structure CameraEvent where
  camera : Nat
  status : RequestStatus
  bufmap : List (Nat × Nat)
  metadata : List (Nat × Int)
  cookie : Nat
deriving DecidableEq, Repr

/-- The event of lines 92-97, filled field by field from the request. -/
def CameraEvent.ofRequest (req : Request) : CameraEvent :=
  { camera := req.camera, status := req.status, bufmap := req.buffers,
    metadata := req.metadata, cookie := req.cookie }

/-- The function `handle_request_completed` on the queue `g_buflist`: the event
is filled from the request and pushed at the back. The write to the eventfd
that follows does not touch the queue. -/
def handle_request_completed (g_buflist : List CameraEvent) (req : Request) :
    List CameraEvent :=
  let ev : CameraEvent := CameraEvent.ofRequest req
  g_buflist ++ [ev]

/-- The binding `get_ready_requests` on the queue `g_buflist`: an empty vector
is swapped with the queue; the result is the vector returned and the queue
afterwards. -/
def get_ready_requests (g_buflist : List CameraEvent) : List CameraEvent × List CameraEvent :=
  let v : List CameraEvent := []
  (g_buflist, v)

/-- One operation on the queue: a push by `handle_request_completed` or a
drain by `get_ready_requests`. -/
inductive QueueOp where
  | push (req : Request)
  | drain
deriving DecidableEq, Repr

/-- A sequence of queue operations run one after the other from the queue
`g_buflist`: the results of the drains in order, and the queue at the end. -/
def runOps : List CameraEvent → List QueueOp → List (List CameraEvent) × List CameraEvent
  | g_buflist, [] => ([], g_buflist)
  | g_buflist, QueueOp.push req :: ops => runOps (handle_request_completed g_buflist req) ops
  | g_buflist, QueueOp.drain :: ops =>
    let r := get_ready_requests g_buflist
    let rest := runOps r.2 ops
    (r.1 :: rest.1, rest.2)

/-- The requests completed in an operation sequence, in order. -/
def completedRequests (ops : List QueueOp) : List Request :=
  ops.filterMap (fun op =>
    match op with
    | QueueOp.push req => some req
    | QueueOp.drain => none)

/-! ## Concrete inputs -/

/-- A format list with the single format of fourcc 1. -/
def oneFormat : StreamFormats := ⟨[(⟨1, 0⟩, [])]⟩

/-- An entry whose pixel format is supported and whose buffer count is 2. -/
def cfgTwoBuffers : StreamConfiguration :=
  { pixelFormat := ⟨1, 0⟩, size := ⟨640, 480⟩, stride := 0, frameSize := 0,
    bufferCount := 2, stream_ := none, formats_ := oneFormat }

/-- An entry whose pixel format (fourcc 7) is not the supported one. -/
def cfgUnsupported : StreamConfiguration :=
  { pixelFormat := ⟨7, 0⟩, size := ⟨640, 480⟩, stride := 0, frameSize := 0,
    bufferCount := 4, stream_ := none, formats_ := oneFormat }

/-- An entry whose list of supported formats is empty, as the constructor
`StreamConfiguration()` and a device without formats produce it. -/
def cfgNoFormats : StreamConfiguration :=
  { pixelFormat := ⟨1, 0⟩, size := ⟨640, 480⟩, stride := 0, frameSize := 0,
    bufferCount := 4, stream_ := none, formats_ := ⟨[]⟩ }

/-- Header declarations for the examples: fourcc kept, BGR888 as fourcc 99,
keys ordered by fourcc then modifier. -/
def exampleDecls : FormatDecls :=
  { toPixelFormat := fun v => ⟨v.fourcc, 0⟩
    BGR888 := ⟨99, 0⟩
    lt := fun a b => decide (a.fourcc < b.fourcc ∨ (a.fourcc = b.fourcc ∧ a.modifier < b.modifier)) }

/-- A conversion to V4L2 formats that keeps the fourcc. -/
def exampleToV4L2 (f : PixelFormat) : V4L2PixelFormat := ⟨f.fourcc⟩

/-- A device that accepts the format as requested and reports 1920 bytes per
line for plane 0. -/
def setFormatAccepts (f : V4L2DeviceFormat) : Int × V4L2DeviceFormat :=
  (0, { f with planes := fun _ => ⟨921600, 1920⟩, planesCount := 1 })

/-- A device that reports success and a size of 320x240 whatever was requested. -/
def setFormatDiverges (f : V4L2DeviceFormat) : Int × V4L2DeviceFormat :=
  (0, { f with size := ⟨320, 240⟩ })

/-- A device on which `setFormat` fails with -16. -/
def setFormatFails (f : V4L2DeviceFormat) : Int × V4L2DeviceFormat :=
  (-16, f)

/-- The data of a camera as `match` registers it, after a configuration with
four buffers: the device holds no buffer and does not stream, `ipa_` is null. -/
def registeredCamera : VividCameraData :=
  { video_ := { buffers := 0, streaming := false, calls := [] }
    stream_ := { configuration_ := { cfgTwoBuffers with bufferCount := 4 } }
    ipa_ := none }

/-- Two buffers of the request 7, which has these two buffer associations. -/
def bufferOne : FrameBuffer := { id := 1, request_ := 7 }

/-- The second buffer of the request 7. -/
def bufferTwo : FrameBuffer := { id := 2, request_ := 7 }

/-- An unclaimed vivid media device with its capture node closed. -/
def vividDevice : MediaDevice :=
  { driver := "vivid", entities := ["vivid-000-vid-cap"], deviceNode := "/dev/video0",
    claimed := false, nodeOpen := false }

/-- A completed request with cookie 5. -/
def exampleRequest : Request :=
  { camera := 1, status := RequestStatus.RequestComplete, buffers := [(0, 1)],
    metadata := [], cookie := 5 }

/-! ## Lemmas on `validate` -/

theorem validate_nil : validate [] = some (Status.Invalid, []) := rfl

theorem validate_single (cfg : StreamConfiguration) :
    validate [cfg] = validateFirst Status.Valid cfg [] := rfl

theorem validate_many (cfg b : StreamConfiguration) (r : List StreamConfiguration) :
    validate (cfg :: b :: r) = validateFirst Status.Adjusted cfg [] := by
  simp [validate]

theorem validateFirst_supported (st : Status) (cfg : StreamConfiguration)
    (tail : List StreamConfiguration) (h : cfg.pixelFormat ∈ cfg.formats_.pixelformats) :
    validateFirst st cfg tail = some (st, { cfg with bufferCount := 4 } :: tail) := by
  simp [validateFirst, h]

theorem validateFirst_unsupported (st : Status) (cfg : StreamConfiguration)
    (tail : List StreamConfiguration) (first : PixelFormat) (rest : List PixelFormat)
    (hl : cfg.formats_.pixelformats = first :: rest)
    (h : cfg.pixelFormat ∉ cfg.formats_.pixelformats) :
    validateFirst st cfg tail
      = some (Status.Adjusted, { cfg with pixelFormat := first, bufferCount := 4 } :: tail) := by
  have hc : cfg.formats_.pixelformats.contains cfg.pixelFormat = false := by
    simpa using h
  unfold validateFirst
  simp only [hc, Bool.false_eq_true, if_false]
  rw [hl]

theorem validateFirst_none (st : Status) (cfg : StreamConfiguration)
    (tail : List StreamConfiguration) (hl : cfg.formats_.pixelformats = []) :
    validateFirst st cfg tail = none := by
  unfold validateFirst
  simp [hl]

/-- Whatever `validateFirst` returns has the shape the source gives it: the
first entry with the buffer count 4 and a supported pixel format, which is the
old one when the status passed in is kept and it was supported. -/
theorem validateFirst_some (st st' : Status) (cfg : StreamConfiguration)
    (tail : List StreamConfiguration) (c' : CameraConfiguration)
    (h : validateFirst st cfg tail = some (st', c')) :
    (cfg.pixelFormat ∈ cfg.formats_.pixelformats ∧ st' = st
        ∧ c' = { cfg with bufferCount := 4 } :: tail) ∨
    (cfg.pixelFormat ∉ cfg.formats_.pixelformats ∧ st' = Status.Adjusted
        ∧ ∃ first rest, cfg.formats_.pixelformats = first :: rest
          ∧ c' = { cfg with pixelFormat := first, bufferCount := 4 } :: tail) := by
  by_cases hm : cfg.pixelFormat ∈ cfg.formats_.pixelformats
  · rw [validateFirst_supported st cfg tail hm] at h
    simp only [Option.some.injEq, Prod.mk.injEq] at h
    exact Or.inl ⟨hm, h.1.symm, h.2.symm⟩
  · cases hl : cfg.formats_.pixelformats with
    | nil => rw [validateFirst_none st cfg tail hl] at h; cases h
    | cons first rest =>
      rw [validateFirst_unsupported st cfg tail first rest hl hm] at h
      simp only [Option.some.injEq, Prod.mk.injEq] at h
      exact Or.inr ⟨hl ▸ hm, h.1.symm, first, rest, rfl, h.2.symm⟩

theorem head_of_eq_cons (l : List PixelFormat) (hne : l ≠ []) (first : PixelFormat)
    (rest : List PixelFormat) (hl : l = first :: rest) : l.head hne = first := by
  subst hl; rfl

/-- Whatever `validate` returns on a set that is not empty: exactly one entry
is left, the first one with the buffer count 4; the status is `Valid` only
for a one-entry set with a supported pixel format. -/
theorem validate_cons_some (cfg : StreamConfiguration) (tail : List StreamConfiguration)
    (st : Status) (c' : CameraConfiguration) (h : validate (cfg :: tail) = some (st, c')) :
    (cfg.pixelFormat ∈ cfg.formats_.pixelformats
        ∧ st = (if tail = [] then Status.Valid else Status.Adjusted)
        ∧ c' = [{ cfg with bufferCount := 4 }]) ∨
    (cfg.pixelFormat ∉ cfg.formats_.pixelformats ∧ st = Status.Adjusted
        ∧ ∃ first rest, cfg.formats_.pixelformats = first :: rest
          ∧ c' = [{ cfg with pixelFormat := first, bufferCount := 4 }]) := by
  cases tail with
  | nil =>
    rw [validate_single] at h
    simpa using validateFirst_some _ _ _ _ _ h
  | cons b r =>
    rw [validate_many] at h
    simpa using validateFirst_some _ _ _ _ _ h

/-- On a set of more than one entry whose first entry has a supported-format
list that is not empty, `validate` returns `Adjusted` and leaves one entry:
the first one with the buffer count 4 and, when its pixel format was not
supported, the first supported pixel format. -/
theorem validate_caps_entries (cfg b : StreamConfiguration) (r : List StreamConfiguration)
    (hne : cfg.formats_.pixelformats ≠ []) :
    validate (cfg :: b :: r) = some (Status.Adjusted,
      [{ cfg with
          pixelFormat := if cfg.pixelFormat ∈ cfg.formats_.pixelformats then cfg.pixelFormat
            else cfg.formats_.pixelformats.head hne
          bufferCount := 4 }]) := by
  rw [validate_many]
  by_cases hm : cfg.pixelFormat ∈ cfg.formats_.pixelformats
  · rw [validateFirst_supported _ _ _ hm]; simp [hm]
  · obtain ⟨first, rest, hl⟩ := List.exists_cons_of_ne_nil hne
    rw [validateFirst_unsupported _ _ _ first rest hl hm]
    simp [hm, head_of_eq_cons _ hne first rest hl]

/-- On a one-entry set whose entry has a supported-format list that is not
empty, `validate` returns `Valid` or `Adjusted`. -/
theorem validate_single_returns (cfg : StreamConfiguration)
    (hne : cfg.formats_.pixelformats ≠ []) :
    ∃ c' st, (st = Status.Valid ∨ st = Status.Adjusted) ∧ validate [cfg] = some (st, c') := by
  by_cases hm : cfg.pixelFormat ∈ cfg.formats_.pixelformats
  · exact ⟨_, _, Or.inl rfl, by rw [validate_single]; exact validateFirst_supported _ _ _ hm⟩
  · obtain ⟨first, rest, hl⟩ := List.exists_cons_of_ne_nil hne
    exact ⟨_, _, Or.inr rfl,
      by rw [validate_single]; exact validateFirst_unsupported _ _ _ first rest hl hm⟩

/-- A one-entry set with a supported pixel format and four buffers is a fixed
point of `validate`. -/
theorem validate_single_fixed (cfg : StreamConfiguration) (hbc : cfg.bufferCount = 4)
    (hmem : cfg.pixelFormat ∈ cfg.formats_.pixelformats) :
    validate [cfg] = some (Status.Valid, [cfg]) := by
  rw [validate_single, validateFirst_supported _ _ _ hmem]
  cases cfg
  simp only at hbc
  subst hbc
  rfl

/-! ## Claims on `validate` -/

/-- C1: `validate` is idempotent on Valid sets: when `validate` returns `Valid`
and leaves the set `c'`, `validate` on `c'` returns `Valid` again and leaves
`c'` as it is, entry count and every field of every entry. -/
theorem validate_idempotent_on_valid (c c' : CameraConfiguration)
    (h : validate c = some (Status.Valid, c')) :
    validate c' = some (Status.Valid, c') := by
  cases c with
  | nil => rw [validate_nil] at h; cases h
  | cons cfg tail =>
    rcases validate_cons_some cfg tail _ _ h with ⟨hm, _, hc⟩ | ⟨_, hst, _⟩
    · subst hc
      rw [validate_single]
      exact validateFirst_supported _ _ _ hm
    · cases hst

theorem validate_idempotent_on_valid_witness :
    validate [cfgTwoBuffers] = some (Status.Valid, [{ cfgTwoBuffers with bufferCount := 4 }])
    ∧ validate [{ cfgTwoBuffers with bufferCount := 4 }]
        = some (Status.Valid, [{ cfgTwoBuffers with bufferCount := 4 }]) :=
  ⟨by decide, validate_idempotent_on_valid [cfgTwoBuffers] _ (by decide)⟩

/-- C2, as stated, fails: on the one-entry set `[cfgTwoBuffers]` (supported
pixel format, buffer count 2) `validate` returns `Valid`, and the set
afterwards differs from the set before: its buffer count is 4. -/
theorem validate_valid_changes_bufferCount :
    validate [cfgTwoBuffers] = some (Status.Valid, [{ cfgTwoBuffers with bufferCount := 4 }])
    ∧ [{ cfgTwoBuffers with bufferCount := 4 }] ≠ [cfgTwoBuffers] := by
  decide

/-- C2, amended: when `validate` returns `Valid`, the set had exactly one entry
and that entry keeps its pixel format, size and every other field except the
buffer count, which is 4 afterwards whatever it was before. So a change of the
entry count or of the pixel format is never reported as `Valid`, and the set
is unchanged exactly when the buffer count was 4 already. -/
theorem validate_valid_frame (c c' : CameraConfiguration)
    (h : validate c = some (Status.Valid, c')) :
    c.length = 1 ∧ c' = c.map (fun e => { e with bufferCount := 4 })
      ∧ (c' = c ↔ ∀ e ∈ c, e.bufferCount = 4) := by
  cases c with
  | nil => rw [validate_nil] at h; cases h
  | cons cfg tail =>
    rcases validate_cons_some cfg tail _ _ h with ⟨_, hst, hc⟩ | ⟨_, hst, _⟩
    · cases tail with
      | nil =>
        subst hc
        refine ⟨rfl, rfl, ?_⟩
        cases cfg
        simp only [List.cons.injEq, and_true, StreamConfiguration.mk.injEq, true_and,
          List.mem_singleton, forall_eq]
        exact eq_comm
      | cons b r => simp at hst
    · cases hst

theorem validate_valid_frame_witness :
    validate [cfgTwoBuffers] = some (Status.Valid, [{ cfgTwoBuffers with bufferCount := 4 }])
    ∧ [cfgTwoBuffers].length = 1
    ∧ [{ cfgTwoBuffers with bufferCount := 4 }]
        = [cfgTwoBuffers].map (fun e => { e with bufferCount := 4 })
    ∧ ([{ cfgTwoBuffers with bufferCount := 4 }] = [cfgTwoBuffers]
        ↔ ∀ e ∈ [cfgTwoBuffers], e.bufferCount = 4) :=
  ⟨by decide, validate_valid_frame [cfgTwoBuffers] _ (by decide)⟩

/-- C3: on a set that is not empty, whose first entry has a pixel format
outside its supported list and a supported list that is not empty, `validate`
returns `Adjusted`, and the first entry afterwards has the first element of
the supported list as its pixel format, a member of that list. -/
theorem validate_unsupported_format_adjusted (cfg : StreamConfiguration)
    (tail : List StreamConfiguration) (hne : cfg.formats_.pixelformats ≠ [])
    (hnot : cfg.pixelFormat ∉ cfg.formats_.pixelformats) :
    ∃ cfg', validate (cfg :: tail) = some (Status.Adjusted, [cfg'])
      ∧ cfg'.pixelFormat = cfg.formats_.pixelformats.head hne
      ∧ cfg'.formats_ = cfg.formats_
      ∧ cfg'.pixelFormat ∈ cfg'.formats_.pixelformats := by
  obtain ⟨first, rest, hl⟩ := List.exists_cons_of_ne_nil hne
  refine ⟨{ cfg with pixelFormat := first, bufferCount := 4 }, ?_, ?_, rfl, ?_⟩
  · cases tail with
    | nil => rw [validate_single]; exact validateFirst_unsupported _ _ _ first rest hl hnot
    | cons b r => rw [validate_many]; exact validateFirst_unsupported _ _ _ first rest hl hnot
  · exact (head_of_eq_cons _ hne first rest hl).symm
  · simp [hl]

theorem validate_unsupported_format_adjusted_witness :
    ∃ cfg', validate [cfgUnsupported] = some (Status.Adjusted, [cfg'])
      ∧ cfg'.pixelFormat = cfgUnsupported.formats_.pixelformats.head (by decide)
      ∧ cfg'.formats_ = cfgUnsupported.formats_
      ∧ cfg'.pixelFormat ∈ cfg'.formats_.pixelformats :=
  validate_unsupported_format_adjusted cfgUnsupported [] (by decide) (by decide)

/-- C4: `validate` returns `Invalid` exactly when the set is empty. On the
empty set it returns `Invalid` and leaves the set empty; on a set that is not
empty and whose first entry has at least one supported pixel format it returns
`Valid` or `Adjusted`; and whenever it returns `Invalid` the set was empty. -/
theorem validate_invalid_iff_empty (c : CameraConfiguration) :
    (c = [] → validate c = some (Status.Invalid, []))
    ∧ (∀ cfg tail, c = cfg :: tail → cfg.formats_.pixelformats ≠ [] →
        ∃ c', validate c = some (Status.Valid, c') ∨ validate c = some (Status.Adjusted, c'))
    ∧ (∀ c', validate c = some (Status.Invalid, c') → c = []) := by
  refine ⟨fun h => by subst h; rfl, ?_, ?_⟩
  · intro cfg tail hc hne
    subst hc
    by_cases hm : cfg.pixelFormat ∈ cfg.formats_.pixelformats
    · cases tail with
      | nil => exact ⟨_, Or.inl (by rw [validate_single]; exact validateFirst_supported _ _ _ hm)⟩
      | cons b r =>
        exact ⟨_, Or.inr (by rw [validate_many]; exact validateFirst_supported _ _ _ hm)⟩
    · obtain ⟨first, rest, hl⟩ := List.exists_cons_of_ne_nil hne
      cases tail with
      | nil =>
        exact ⟨_, Or.inr (by
          rw [validate_single]; exact validateFirst_unsupported _ _ _ first rest hl hm)⟩
      | cons b r =>
        exact ⟨_, Or.inr (by
          rw [validate_many]; exact validateFirst_unsupported _ _ _ first rest hl hm)⟩
  · intro c' h
    cases c with
    | nil => rfl
    | cons cfg tail =>
      rcases validate_cons_some cfg tail _ _ h with ⟨_, hst, _⟩ | ⟨_, hst, _⟩
      · split at hst <;> cases hst
      · cases hst

theorem validate_invalid_iff_empty_witness :
    validate [] = some (Status.Invalid, [])
    ∧ ∃ c', validate [cfgUnsupported, cfgTwoBuffers] = some (Status.Valid, c')
        ∨ validate [cfgUnsupported, cfgTwoBuffers] = some (Status.Adjusted, c') :=
  ⟨(validate_invalid_iff_empty []).1 rfl,
   (validate_invalid_iff_empty [cfgUnsupported, cfgTwoBuffers]).2.1 cfgUnsupported
      [cfgTwoBuffers] rfl (by decide)⟩

/-- C5 at the failing input: on the two-entry set `[cfgNoFormats, cfgTwoBuffers]`,
whose first entry has no supported format, `validate` drops the second entry
and then reads element 0 of the empty format list; it returns no status. -/
theorem validate_two_entries_no_formats_faults :
    validate [cfgNoFormats, cfgTwoBuffers] = none := by
  decide

/-- C6 at the failing input: on the one-entry set `[cfgNoFormats]`, whose entry
has an empty list of supported formats, `validate` reads element 0 of the
empty list and returns no status; `generateConfiguration` reaches the same
fault for a device that enumerates no format. -/
theorem validate_no_formats_faults :
    validate [cfgNoFormats] = none
    ∧ generateConfiguration exampleDecls [] [StreamRole.Viewfinder] = none := by
  decide

/-! ## `generateConfiguration` -/

theorem mapInsert_ne_nil (lt : PixelFormat → PixelFormat → Bool)
    (kv : PixelFormat × List SizeRange) (m : List (PixelFormat × List SizeRange)) :
    mapInsert lt kv m ≠ [] := by
  cases m with
  | nil => simp [mapInsert]
  | cons e m =>
    unfold mapInsert
    split
    · simp
    · split <;> simp

theorem mem_keys_mapInsert (lt : PixelFormat → PixelFormat → Bool)
    (kv : PixelFormat × List SizeRange) (m : List (PixelFormat × List SizeRange))
    (x : PixelFormat) (hx : x ∈ (mapInsert lt kv m).map Prod.fst) :
    x = kv.1 ∨ x ∈ m.map Prod.fst := by
  induction m with
  | nil => simpa [mapInsert] using hx
  | cons e m ih =>
    unfold mapInsert at hx
    split at hx
    · simpa using hx
    · split at hx
      · simp only [List.map_cons, List.mem_cons] at hx ⊢
        rcases hx with hx | hx
        · exact Or.inr (Or.inl hx)
        · rcases ih hx with h | h
          · exact Or.inl h
          · exact Or.inr (Or.inr h)
      · exact Or.inr hx

theorem foldl_mapInsert_ne_nil (d : FormatDecls) (l : List (V4L2PixelFormat × List SizeRange))
    (acc : List (PixelFormat × List SizeRange)) (h : acc ≠ [] ∨ l ≠ []) :
    l.foldl (fun m format => mapInsert d.lt (d.toPixelFormat format.1, format.2) m) acc ≠ [] := by
  induction l generalizing acc with
  | nil => simpa using h
  | cons a l ih =>
    simp only [List.foldl_cons]
    exact ih _ (Or.inl (mapInsert_ne_nil _ _ _))

theorem mem_keys_foldl_mapInsert (d : FormatDecls)
    (l : List (V4L2PixelFormat × List SizeRange)) (acc : List (PixelFormat × List SizeRange))
    (x : PixelFormat)
    (hx : x ∈ (l.foldl (fun m format => mapInsert d.lt (d.toPixelFormat format.1, format.2) m)
      acc).map Prod.fst) :
    x ∈ acc.map Prod.fst ∨ x ∈ l.map (fun format => d.toPixelFormat format.1) := by
  induction l generalizing acc with
  | nil => exact Or.inl hx
  | cons a l ih =>
    simp only [List.foldl_cons] at hx
    rcases ih _ hx with h | h
    · rcases mem_keys_mapInsert _ _ _ _ h with h | h
      · exact Or.inr (by simp [h])
      · exact Or.inl h
    · exact Or.inr (by simp only [List.map_cons, List.mem_cons]; exact Or.inr h)

/-- The device format map is not empty when the device enumerates a format. -/
theorem deviceFormats_ne_nil (d : FormatDecls) (l : List (V4L2PixelFormat × List SizeRange))
    (h : l ≠ []) : deviceFormats d l ≠ [] :=
  foldl_mapInsert_ne_nil d l [] (Or.inr h)

/-- Every key of the device format map is a converted format of the device. -/
theorem mem_keys_deviceFormats (d : FormatDecls) (l : List (V4L2PixelFormat × List SizeRange))
    (x : PixelFormat) (hx : x ∈ (deviceFormats d l).map Prod.fst) :
    x ∈ l.map (fun format => d.toPixelFormat format.1) := by
  rcases mem_keys_foldl_mapInsert d l [] x hx with h | h
  · simp at h
  · exact h

/-- C7: for a role list that is not empty, on a device that enumerates at least
one format, `generateConfiguration` requests 1280x720 BGR888 with four
buffers, the `validate` call inside it returns `Valid` or `Adjusted`, and the
set returned has exactly one entry, of size 1280x720 with four buffers, whose
pixel format is a converted format of the device and a key of its own format
map; `validate` on the returned set returns `Valid` and changes nothing. -/
theorem generateConfiguration_single_valid (d : FormatDecls)
    (v4l2Formats : List (V4L2PixelFormat × List SizeRange)) (roles : List StreamRole)
    (hr : roles ≠ []) (hf : v4l2Formats ≠ []) :
    ∃ st cfg,
      validate (addConfiguration [] (requestedConfiguration d v4l2Formats)) = some (st, [cfg])
      ∧ (st = Status.Valid ∨ st = Status.Adjusted)
      ∧ generateConfiguration d v4l2Formats roles = some [cfg]
      ∧ (requestedConfiguration d v4l2Formats).pixelFormat = d.BGR888
      ∧ (requestedConfiguration d v4l2Formats).size = ⟨1280, 720⟩
      ∧ (requestedConfiguration d v4l2Formats).bufferCount = 4
      ∧ cfg.size = ⟨1280, 720⟩ ∧ cfg.bufferCount = 4
      ∧ cfg.formats_ = ⟨deviceFormats d v4l2Formats⟩
      ∧ cfg.pixelFormat ∈ v4l2Formats.map (fun format => d.toPixelFormat format.1)
      ∧ cfg.pixelFormat ∈ cfg.formats_.pixelformats
      ∧ validate [cfg] = some (Status.Valid, [cfg]) := by
  have hne : (requestedConfiguration d v4l2Formats).formats_.pixelformats ≠ [] := by
    have := deviceFormats_ne_nil d v4l2Formats hf
    simpa [requestedConfiguration, StreamConfiguration.ofFormats, StreamFormats.pixelformats]
      using this
  have hroles : roles.isEmpty = false := by
    cases roles with
    | nil => exact absurd rfl hr
    | cons a l => rfl
  obtain ⟨c', hv⟩ := (validate_single_returns (requestedConfiguration d v4l2Formats) hne)
  obtain ⟨st, hst, hval⟩ := hv
  have hshape := validate_cons_some _ _ _ _ hval
  have hgen : generateConfiguration d v4l2Formats roles = some c' := by
    simp [generateConfiguration, hroles, addConfiguration, hval]
  have hdev : ∀ x, x ∈ (requestedConfiguration d v4l2Formats).formats_.pixelformats →
      x ∈ v4l2Formats.map (fun format => d.toPixelFormat format.1) :=
    fun x hx => mem_keys_deviceFormats d v4l2Formats x hx
  rcases hshape with ⟨hm, _, hc⟩ | ⟨_, _, first, rest, hl, hc⟩
  · subst hc
    exact ⟨st, _, hval, hst, hgen, rfl, rfl, rfl, rfl, rfl, rfl, hdev _ hm, hm,
      validate_single_fixed _ rfl hm⟩
  · subst hc
    have hm : first ∈ (requestedConfiguration d v4l2Formats).formats_.pixelformats := by
      rw [hl]; simp
    exact ⟨st, _, hval, hst, hgen, rfl, rfl, rfl, rfl, rfl, rfl, hdev _ hm, hm,
      validate_single_fixed _ rfl hm⟩

theorem generateConfiguration_single_valid_witness :
    ∃ st cfg,
      validate (addConfiguration [] (requestedConfiguration exampleDecls [(⟨5⟩, []), (⟨3⟩, [])]))
        = some (st, [cfg])
      ∧ (st = Status.Valid ∨ st = Status.Adjusted)
      ∧ generateConfiguration exampleDecls [(⟨5⟩, []), (⟨3⟩, [])] [StreamRole.Viewfinder]
        = some [cfg]
      ∧ (requestedConfiguration exampleDecls [(⟨5⟩, []), (⟨3⟩, [])]).pixelFormat
        = exampleDecls.BGR888
      ∧ (requestedConfiguration exampleDecls [(⟨5⟩, []), (⟨3⟩, [])]).size = ⟨1280, 720⟩
      ∧ (requestedConfiguration exampleDecls [(⟨5⟩, []), (⟨3⟩, [])]).bufferCount = 4
      ∧ cfg.size = ⟨1280, 720⟩ ∧ cfg.bufferCount = 4
      ∧ cfg.formats_ = ⟨deviceFormats exampleDecls [(⟨5⟩, []), (⟨3⟩, [])]⟩
      ∧ cfg.pixelFormat ∈ [(⟨5⟩, []), (⟨3⟩, [])].map
          (fun format : V4L2PixelFormat × List SizeRange => exampleDecls.toPixelFormat format.1)
      ∧ cfg.pixelFormat ∈ cfg.formats_.pixelformats
      ∧ validate [cfg] = some (Status.Valid, [cfg]) :=
  generateConfiguration_single_valid exampleDecls [(⟨5⟩, []), (⟨3⟩, [])]
    [StreamRole.Viewfinder] (by decide) (by decide)

/-! ## `configure` -/

/-- C8: `configure` does not accept a divergent format. On a configuration with
a first entry `cfg`, for every `setFormat` response `r`: when `r.1` is not 0
`configure` returns it, and when `r.1` is 0 but the size or fourcc written
back differs from the requested one it returns `-EINVAL`, which is not 0; in
both cases the configuration, stride and stream binding included, is left as
it was. When size and fourcc agree it returns 0 with the stride set to the
bytes per line of plane 0 and the entry bound to the stream. It returns 0 in
no other case. -/
theorem configure_rejects_divergent_format (toV4L2PixelFormat : PixelFormat → V4L2PixelFormat)
    (setFormat : V4L2DeviceFormat → Int × V4L2DeviceFormat) (stream : Nat)
    (cfg : StreamConfiguration) (tail : List StreamConfiguration) :
    ((setFormat (requestedFormat toV4L2PixelFormat cfg)).1 ≠ 0 →
      configure toV4L2PixelFormat setFormat stream (cfg :: tail)
        = some ((setFormat (requestedFormat toV4L2PixelFormat cfg)).1, cfg :: tail))
    ∧ ((setFormat (requestedFormat toV4L2PixelFormat cfg)).1 = 0 →
        ((setFormat (requestedFormat toV4L2PixelFormat cfg)).2.size ≠ cfg.size
          ∨ (setFormat (requestedFormat toV4L2PixelFormat cfg)).2.fourcc
              ≠ toV4L2PixelFormat cfg.pixelFormat) →
        configure toV4L2PixelFormat setFormat stream (cfg :: tail) = some (-EINVAL, cfg :: tail)
          ∧ -EINVAL ≠ 0)
    ∧ ((setFormat (requestedFormat toV4L2PixelFormat cfg)).1 = 0 →
        (setFormat (requestedFormat toV4L2PixelFormat cfg)).2.size = cfg.size →
        (setFormat (requestedFormat toV4L2PixelFormat cfg)).2.fourcc
          = toV4L2PixelFormat cfg.pixelFormat →
        configure toV4L2PixelFormat setFormat stream (cfg :: tail)
          = some (0, { cfg with
              stream_ := some stream
              stride := ((setFormat (requestedFormat toV4L2PixelFormat cfg)).2.planes 0).bpl }
            :: tail))
    ∧ (∀ c', configure toV4L2PixelFormat setFormat stream (cfg :: tail) = some (0, c') →
        (setFormat (requestedFormat toV4L2PixelFormat cfg)).1 = 0
        ∧ (setFormat (requestedFormat toV4L2PixelFormat cfg)).2.size = cfg.size
        ∧ (setFormat (requestedFormat toV4L2PixelFormat cfg)).2.fourcc
            = toV4L2PixelFormat cfg.pixelFormat
        ∧ c' = { cfg with
              stream_ := some stream
              stride := ((setFormat (requestedFormat toV4L2PixelFormat cfg)).2.planes 0).bpl }
            :: tail) := by
  have hE : -EINVAL ≠ 0 := by decide
  refine ⟨?_, ?_, ?_, ?_⟩
  · intro h
    simp [configure, h]
  · intro h hd
    refine ⟨?_, hE⟩
    simp only [configure, h, ne_eq, not_true_eq_false, if_false]
    rw [if_pos hd]
  · intro h hs hf
    simp [configure, h, hs, hf]
  · intro c' hc
    by_cases h : (setFormat (requestedFormat toV4L2PixelFormat cfg)).1 = 0
    · by_cases hd : (setFormat (requestedFormat toV4L2PixelFormat cfg)).2.size ≠ cfg.size
          ∨ (setFormat (requestedFormat toV4L2PixelFormat cfg)).2.fourcc
              ≠ toV4L2PixelFormat cfg.pixelFormat
      · simp only [configure, h, ne_eq, not_true_eq_false, if_false] at hc
        rw [if_pos hd] at hc
        simp only [Option.some.injEq, Prod.mk.injEq] at hc
        exact absurd hc.1 hE
      · simp only [configure, h, ne_eq, not_true_eq_false, if_false] at hc
        rw [if_neg hd] at hc
        simp only [Option.some.injEq, Prod.mk.injEq, true_and] at hc
        have hs : (setFormat (requestedFormat toV4L2PixelFormat cfg)).2.size = cfg.size := by
          by_contra hne; exact hd (Or.inl hne)
        have hf : (setFormat (requestedFormat toV4L2PixelFormat cfg)).2.fourcc
            = toV4L2PixelFormat cfg.pixelFormat := by
          by_contra hne; exact hd (Or.inr hne)
        exact ⟨h, hs, hf, hc.symm⟩
    · simp only [configure, ne_eq, h, not_false_eq_true, if_true, Option.some.injEq,
        Prod.mk.injEq] at hc
      exact hc.1.elim

theorem configure_rejects_divergent_format_witness :
    configure exampleToV4L2 setFormatFails 7 [cfgTwoBuffers] = some (-16, [cfgTwoBuffers])
    ∧ (configure exampleToV4L2 setFormatDiverges 7 [cfgTwoBuffers]
        = some (-EINVAL, [cfgTwoBuffers]) ∧ -EINVAL ≠ 0)
    ∧ configure exampleToV4L2 setFormatAccepts 7 [cfgTwoBuffers]
        = some (0, [{ cfgTwoBuffers with stream_ := some 7, stride := 1920 }]) :=
  ⟨(configure_rejects_divergent_format exampleToV4L2 setFormatFails 7 cfgTwoBuffers []).1
      (by decide),
   (configure_rejects_divergent_format exampleToV4L2 setFormatDiverges 7 cfgTwoBuffers []).2.1
      (by decide) (Or.inl (by decide)),
   (configure_rejects_divergent_format exampleToV4L2 setFormatAccepts 7 cfgTwoBuffers []).2.2.1
      (by decide) (by decide) (by decide)⟩

/-! ## `start` and `stop` -/

/-- When `importBuffers` fails, `start` returns its error; `importBuffers` is
the only call made on the device and the device state is as before. -/
theorem start_import_fails (data : VividCameraData) (importRet streamOnRet : Int)
    (h : importRet < 0) :
    start data importRet streamOnRet = Except.ok (importRet,
      { data with video_ := { data.video_ with
          calls := data.video_.calls
            ++ [DeviceCall.importBuffers data.stream_.configuration_.bufferCount] } }) := by
  simp [start, V4L2VideoDevice.importBuffers, h]

/-- When `ipa_` points to an IPA, `importBuffers` succeeds and `streamOn` fails,
`start` returns the `streamOn` error after releasing the buffers: the device
holds none, and streams no more than before. -/
theorem start_rollback_with_ipa (data : VividCameraData) (ipa : IPAProxy)
    (importRet streamOnRet : Int) (hipa : data.ipa_ = some ipa)
    (hi : ¬ importRet < 0) (hs : streamOnRet < 0) :
    start data importRet streamOnRet = Except.ok (streamOnRet,
      { data with
        ipa_ := some ipa.stop
        video_ :=
          { buffers := 0
            streaming := data.video_.streaming
            calls := data.video_.calls
              ++ [DeviceCall.importBuffers data.stream_.configuration_.bufferCount]
              ++ [DeviceCall.streamOn] ++ [DeviceCall.releaseBuffers] } }) := by
  simp [start, V4L2VideoDevice.importBuffers, V4L2VideoDevice.streamOn,
    V4L2VideoDevice.releaseBuffers, hi, hs, hipa]

/-- When `ipa_` is null, `importBuffers` succeeds and `streamOn` fails, `start`
faults at `data->ipa_->stop()`: it returns nothing, and the device still holds
the imported buffers, `releaseBuffers` not having been called. -/
theorem start_null_ipa_faults (data : VividCameraData) (importRet streamOnRet : Int)
    (hipa : data.ipa_ = none) (hi : ¬ importRet < 0) (hs : streamOnRet < 0) :
    start data importRet streamOnRet = Except.error
      { data with
        video_ :=
          { buffers := data.stream_.configuration_.bufferCount
            streaming := data.video_.streaming
            calls := data.video_.calls
              ++ [DeviceCall.importBuffers data.stream_.configuration_.bufferCount]
              ++ [DeviceCall.streamOn] } } := by
  simp [start, V4L2VideoDevice.importBuffers, V4L2VideoDevice.streamOn, hi, hs, hipa]

/-- C9 at the failing input: on the camera as `match` registers it (`ipa_`
null, four buffers configured), with `importBuffers` reporting 0 and
`streamOn` reporting -5, `start` does not return the error: it faults at
`data->ipa_->stop()` with four buffers still imported, `releaseBuffers` never
called. -/
theorem start_streamOn_failure_leaks_buffers :
    start registeredCamera 0 (-5) = Except.error
      { registeredCamera with
        video_ :=
          { buffers := 4
            streaming := false
            calls := [DeviceCall.importBuffers 4, DeviceCall.streamOn] } } := by
  rfl

/-- C10: from every device state and for every `streamOff` result, `stop` calls
`streamOff` and then `releaseBuffers` and nothing else, and leaves the device
not streaming with no buffer held, stream and `ipa_` untouched; a second
`stop` leaves the device not streaming with no buffer held. -/
theorem stop_teardown (data : VividCameraData) (r1 r2 : Int) :
    (stop data r1).video_.calls
        = data.video_.calls ++ [DeviceCall.streamOff, DeviceCall.releaseBuffers]
    ∧ (stop data r1).video_.streaming = false
    ∧ (stop data r1).video_.buffers = 0
    ∧ (stop data r1).stream_ = data.stream_
    ∧ (stop data r1).ipa_ = data.ipa_
    ∧ (stop (stop data r1) r2).video_.streaming = (stop data r1).video_.streaming
    ∧ (stop (stop data r1) r2).video_.buffers = (stop data r1).video_.buffers
    ∧ (stop (stop data r1) r2).stream_ = (stop data r1).stream_
    ∧ (stop (stop data r1) r2).ipa_ = (stop data r1).ipa_ := by
  simp [stop, V4L2VideoDevice.streamOff, V4L2VideoDevice.releaseBuffers]

/-! ## `bufferReady` -/

theorem deliver_eq_append (calls : List PipeCall) (notifications : List FrameBuffer) :
    deliver calls notifications = calls ++ (notifications.map (fun b =>
      [PipeCall.completeBuffer b.request_ b.id, PipeCall.completeRequest b.request_])).flatten := by
  induction notifications generalizing calls with
  | nil => simp [deliver]
  | cons b l ih =>
    have h := ih (bufferReady calls b)
    simp only [deliver, List.foldl_cons] at h ⊢
    rw [h]
    simp [bufferReady]

theorem completeRequestCount_flatten (request : Nat) (notifications : List FrameBuffer) :
    completeRequestCount request ((notifications.map (fun b =>
      [PipeCall.completeBuffer b.request_ b.id, PipeCall.completeRequest b.request_])).flatten)
      = notifications.countP (fun b => b.request_ = request) := by
  induction notifications with
  | nil => rfl
  | cons b l ih =>
    simp only [completeRequestCount] at ih
    simp only [completeRequestCount, List.map_cons, List.flatten_cons, List.count_append, ih,
      List.countP_cons]
    by_cases h : b.request_ = request
    · simp [List.count_cons, h]; omega
    · simp [List.count_cons, h]

/-- C11, as stated, fails: for the request 7 with the two buffers 1 and 2 and
one notification per buffer, `completeRequest` is invoked twice, and its first
invocation comes when only buffer 1 has been marked complete; a repeated
notification for buffer 1 alone also invokes it twice. -/
theorem bufferReady_completes_before_all_buffers :
    deliver [] [bufferOne, bufferTwo]
      = [PipeCall.completeBuffer 7 1, PipeCall.completeRequest 7,
         PipeCall.completeBuffer 7 2, PipeCall.completeRequest 7]
    ∧ completeRequestCount 7 (deliver [] [bufferOne, bufferTwo]) = 2
    ∧ completeRequestCount 7 (deliver [] [bufferOne]) = 1
    ∧ completedBuffers 7 (deliver [] [bufferOne]) = [1]
    ∧ completeRequestCount 7 (deliver [] [bufferOne, bufferOne]) = 2 := by
  decide

/-- C11, amended: every notification delivered to `bufferReady` invokes
`completeBuffer` for the notified buffer and then `completeRequest` for its
request, with no check in between; so `completeRequest` is invoked for a
request once per notification for one of its buffers. For a request not yet
completed, one notification invokes it exactly once, after the notified buffer
has been marked complete. -/
theorem bufferReady_completes_on_every_notification (calls : List PipeCall)
    (notifications : List FrameBuffer) (request : Nat) :
    deliver calls notifications = calls ++ (notifications.map (fun b =>
      [PipeCall.completeBuffer b.request_ b.id, PipeCall.completeRequest b.request_])).flatten
    ∧ completeRequestCount request (deliver calls notifications)
        = completeRequestCount request calls
          + notifications.countP (fun b => b.request_ = request)
    ∧ (∀ buffer : FrameBuffer, buffer.request_ = request →
        completeRequestCount request calls = 0 →
        completeRequestCount request (bufferReady calls buffer) = 1
        ∧ buffer.id ∈ completedBuffers request (bufferReady calls buffer)
        ∧ (bufferReady calls buffer).getLast? = some (PipeCall.completeRequest request)) := by
  refine ⟨deliver_eq_append calls notifications, ?_, ?_⟩
  · rw [deliver_eq_append]
    have h := completeRequestCount_flatten request notifications
    simp only [completeRequestCount] at h ⊢
    rw [List.count_append, h]
  · intro buffer hb hc
    simp only [completeRequestCount] at hc
    refine ⟨?_, ?_, ?_⟩
    · simp [completeRequestCount, bufferReady, List.count_append, hc, hb, List.count_cons]
    · simp [completedBuffers, bufferReady, hb, List.filterMap_append]
    · simp [bufferReady, hb]

theorem bufferReady_completes_on_every_notification_witness :
    completeRequestCount 7 (bufferReady [] bufferOne) = 1
    ∧ bufferOne.id ∈ completedBuffers 7 (bufferReady [] bufferOne)
    ∧ (bufferReady [] bufferOne).getLast? = some (PipeCall.completeRequest 7) :=
  (bufferReady_completes_on_every_notification [] [] 7).2.2 bufferOne (by decide) (by decide)

/-! ## `match` -/

theorem map_nodeOpen_updateAt_claimed (i : Nat) (l : List MediaDevice) :
    (updateAt (fun m => { m with claimed := true }) i l).map MediaDevice.nodeOpen
      = l.map MediaDevice.nodeOpen := by
  induction l generalizing i with
  | nil => cases i <;> rfl
  | cons m l ih =>
    cases i with
    | zero => rfl
    | succ i => simp [updateAt, ih]

theorem match_no_device (s : MatchState) (openRet : Int)
    (h : search vividMatch s.enumerator = none) : match_ s openRet = (false, s) := by
  simp [match_, acquireMediaDevice, h]

theorem match_open_fails (s : MatchState) (openRet : Int) (i : Nat)
    (h : search vividMatch s.enumerator = some i) (ho : openRet ≠ 0) :
    match_ s openRet = (false,
      { s with enumerator := updateAt (fun m => { m with claimed := true }) i s.enumerator }) := by
  have hE : ¬ (ENODEV = 0) := by decide
  simp [match_, acquireMediaDevice, h, VividCameraData.init, ho, hE]

theorem match_registers (s : MatchState) (openRet : Int) (i : Nat)
    (h : search vividMatch s.enumerator = some i) (ho : openRet = 0) :
    ∃ entry, match_ s openRet = (true,
      { enumerator := updateAt (fun m => { m with nodeOpen := true }) i
          (updateAt (fun m => { m with claimed := true }) i s.enumerator)
        cameras := s.cameras ++ [entry] }) := by
  exact ⟨_, by simp [match_, acquireMediaDevice, h, VividCameraData.init, ho]; rfl⟩

/-- C12, as stated, fails: with one unclaimed vivid device whose capture node
cannot be opened, `match` returns false and registers no camera, but the media
device, unclaimed before the call, is claimed after it. -/
theorem match_open_failure_leaves_claim :
    vividDevice.claimed = false
    ∧ match_ { enumerator := [vividDevice], cameras := [] } (-1)
      = (false, { enumerator := [{ vividDevice with claimed := true }], cameras := [] }) := by
  decide

/-- C12, amended: `match` returns false exactly when no unclaimed matching
device exists or the capture node cannot be opened. Without a device the state
is as before. When the open fails the only change is that the device acquired
is claimed. Whenever `match` returns false no camera has been registered and
no capture node has changed between open and closed; when it returns true
exactly one camera has been registered. -/
theorem match_failure_registers_nothing (s : MatchState) (openRet : Int) :
    ((match_ s openRet).1 = false ↔ (search vividMatch s.enumerator = none ∨ openRet ≠ 0))
    ∧ (search vividMatch s.enumerator = none → match_ s openRet = (false, s))
    ∧ (∀ i, search vividMatch s.enumerator = some i → openRet ≠ 0 →
        match_ s openRet = (false, { s with
          enumerator := updateAt (fun m => { m with claimed := true }) i s.enumerator }))
    ∧ ((match_ s openRet).1 = false →
        (match_ s openRet).2.cameras = s.cameras
        ∧ (match_ s openRet).2.enumerator.map MediaDevice.nodeOpen
            = s.enumerator.map MediaDevice.nodeOpen)
    ∧ ((match_ s openRet).1 = true →
        ∃ entry, (match_ s openRet).2.cameras = s.cameras ++ [entry]) := by
  cases hs : search vividMatch s.enumerator with
  | none =>
    have h := match_no_device s openRet hs
    refine ⟨?_, fun _ => h, ?_, ?_, ?_⟩
    · simp [h]
    · intro i hi; cases hi
    · intro _; simp [h]
    · intro ht; rw [h] at ht; cases ht
  | some i =>
    by_cases ho : openRet = 0
    · obtain ⟨entry, h⟩ := match_registers s openRet i hs ho
      refine ⟨?_, ?_, ?_, ?_, ?_⟩
      · rw [h]; simp [ho]
      · intro hn; cases hn
      · intro j _ hne; exact absurd ho hne
      · intro hf; rw [h] at hf; cases hf
      · intro _; exact ⟨entry, by rw [h]⟩
    · have h := match_open_fails s openRet i hs ho
      refine ⟨?_, ?_, ?_, ?_, ?_⟩
      · simp [h, ho]
      · intro hn; cases hn
      · intro j hj _
        cases hj
        exact h
      · intro _
        rw [h]
        exact ⟨rfl, map_nodeOpen_updateAt_claimed i s.enumerator⟩
      · intro ht; rw [h] at ht; cases ht

theorem match_failure_registers_nothing_witness :
    match_ { enumerator := [vividDevice], cameras := [] } (-1)
      = (false, { enumerator := updateAt (fun m => { m with claimed := true }) 0 [vividDevice],
                  cameras := [] })
    ∧ match_ { enumerator := [], cameras := [] } 0 = (false, { enumerator := [], cameras := [] })
    ∧ ∃ entry, (match_ { enumerator := [vividDevice], cameras := [] } 0).2.cameras
        = [] ++ [entry] :=
  ⟨(match_failure_registers_nothing { enumerator := [vividDevice], cameras := [] } (-1)).2.2.1 0
      (by decide) (by decide),
   (match_failure_registers_nothing { enumerator := [], cameras := [] } 0).2.1 (by decide),
   (match_failure_registers_nothing { enumerator := [vividDevice], cameras := [] } 0).2.2.2.2
      (by decide)⟩

/-! ## Completion hand-off queue -/

theorem runOps_append (q : List CameraEvent) (a b : List QueueOp) :
    runOps q (a ++ b)
      = ((runOps q a).1 ++ (runOps (runOps q a).2 b).1, (runOps (runOps q a).2 b).2) := by
  induction a generalizing q with
  | nil => simp [runOps]
  | cons op a ih =>
    cases op with
    | push req => simp only [List.cons_append, runOps]; exact ih _
    | drain =>
      have h := ih (get_ready_requests q).2
      show ((get_ready_requests q).1 :: (runOps (get_ready_requests q).2 (a ++ b)).1,
          (runOps (get_ready_requests q).2 (a ++ b)).2) = _
      rw [h]
      rfl

theorem runOps_pushes (q : List CameraEvent) (reqs : List Request) :
    runOps q (reqs.map QueueOp.push) = ([], q ++ reqs.map CameraEvent.ofRequest) := by
  induction reqs generalizing q with
  | nil => simp [runOps]
  | cons r reqs ih =>
    simp only [List.map_cons, runOps, ih, handle_request_completed]
    simp

theorem runOps_conserves (q : List CameraEvent) (ops : List QueueOp) :
    (runOps q ops).1.flatten ++ (runOps q ops).2
      = q ++ (completedRequests ops).map CameraEvent.ofRequest := by
  induction ops generalizing q with
  | nil => simp [runOps, completedRequests]
  | cons op ops ih =>
    cases op with
    | push req =>
      simp only [runOps, ih, handle_request_completed]
      simp [completedRequests]
    | drain =>
      have h := ih []
      simp only [completedRequests] at h
      simp only [runOps, get_ready_requests, List.flatten_cons, List.append_assoc, h]
      simp [completedRequests]

/-- C13, as stated, fails: after one push and no drain the concatenation of the
drain results is empty, while one request has completed; its event is still in
the queue. -/
theorem handoff_trailing_push_not_drained :
    (runOps [] [QueueOp.push exampleRequest]).1.flatten = []
    ∧ (runOps [] [QueueOp.push exampleRequest]).2 = [CameraEvent.ofRequest exampleRequest]
    ∧ (completedRequests [QueueOp.push exampleRequest]).map CameraEvent.ofRequest
        = [CameraEvent.ofRequest exampleRequest]
    ∧ (runOps [] [QueueOp.push exampleRequest]).1.flatten
        ≠ (completedRequests [QueueOp.push exampleRequest]).map CameraEvent.ofRequest := by
  decide

/-- C13, amended: a drain returns the whole queue and leaves it empty; a drain
that follows the pushes of `reqs` returns what was queued before them and then
their events in push order, so after an earlier drain exactly the events
pushed since. Over any operation sequence the concatenation of the drain
results followed by the events still queued is the initial queue followed by
the events of all completed requests, each filled from its request; when the
sequence ends with a drain the concatenation of the drain results alone is
that sequence and the queue is empty. -/
theorem handoff_queue_conserves_events (q : List CameraEvent)
    (ops pre post : List QueueOp) (reqs : List Request) :
    get_ready_requests q = (q, [])
    ∧ runOps q (reqs.map QueueOp.push ++ [QueueOp.drain] ++ post)
        = ((q ++ reqs.map CameraEvent.ofRequest) :: (runOps [] post).1, (runOps [] post).2)
    ∧ (runOps q (pre ++ [QueueOp.drain])).2 = []
    ∧ runOps q (pre ++ [QueueOp.drain] ++ reqs.map QueueOp.push ++ [QueueOp.drain] ++ post)
        = ((runOps q (pre ++ [QueueOp.drain])).1 ++ [reqs.map CameraEvent.ofRequest]
            ++ (runOps [] post).1, (runOps [] post).2)
    ∧ (runOps q ops).1.flatten ++ (runOps q ops).2
        = q ++ (completedRequests ops).map CameraEvent.ofRequest
    ∧ (runOps q (ops ++ [QueueOp.drain])).1.flatten
        = q ++ (completedRequests ops).map CameraEvent.ofRequest
    ∧ (∀ req, CameraEvent.ofRequest req
        = { camera := req.camera, status := req.status, bufmap := req.buffers,
            metadata := req.metadata, cookie := req.cookie }) := by
  have hseg : ∀ (q0 : List CameraEvent),
      runOps q0 (reqs.map QueueOp.push ++ [QueueOp.drain] ++ post)
        = ((q0 ++ reqs.map CameraEvent.ofRequest) :: (runOps [] post).1, (runOps [] post).2) := by
    intro q0
    rw [List.append_assoc, runOps_append, runOps_pushes]
    simp [runOps, get_ready_requests]
  have hdrain : (runOps q (pre ++ [QueueOp.drain])).2 = [] := by
    rw [runOps_append]
    simp [runOps, get_ready_requests]
  refine ⟨rfl, hseg q, hdrain, ?_, runOps_conserves q ops, ?_, fun _ => rfl⟩
  · have hassoc : pre ++ [QueueOp.drain] ++ reqs.map QueueOp.push ++ [QueueOp.drain] ++ post
        = (pre ++ [QueueOp.drain]) ++ (reqs.map QueueOp.push ++ [QueueOp.drain] ++ post) := by
      simp [List.append_assoc]
    rw [hassoc, runOps_append, hdrain, hseg []]
    simp
  · have h := runOps_conserves q (ops ++ [QueueOp.drain])
    have hd : (runOps q (ops ++ [QueueOp.drain])).2 = [] := by
      rw [runOps_append]
      simp [runOps, get_ready_requests]
    rw [hd, List.append_nil] at h
    rw [h]
    simp [completedRequests, List.filterMap_append]

end Vivid
